import Mathlib

/-
Verification of the Rufus-AI landing page (src/rufus-ai/src/App.tsx).

The page is a single React function component `App` with no props, no state
and no effects: it returns one fixed JSX tree. We shallowly embed the DOM it
produces as an inductive tree of elements (tag, attributes, children) and
text nodes, translating the JSX literally, attribute for attribute, in
source order. All properties of the page are then decidable evaluations on
this concrete tree.
-/

namespace RufusAI

/-- A node of the document tree: an element with a tag, an ordered attribute
list and children, or a text node. -/
inductive Node where
  | element (tag : String) (attrs : List (String × String)) (children : List Node)
  | text (s : String)

/-- The document tree returned by `function App()` in App.tsx, translated
node for node from the JSX (whitespace-only JSX gaps produce no text nodes). -/
def App (_ : Unit) : Node :=
  .element "div" [("id", "root")]
    [ .element "header" [("className", "site-header")]
        [ .element "div" [("className", "brand")]
            [ .element "img" [("src", "/vite.svg"), ("className", "logo"), ("alt", "Rufus AI logo")] [],
              .element "div" []
                [ .element "h1" [] [.text "Rufus AI"],
                  .element "p" [("className", "tagline")]
                    [.text "A helper for UC Merced students, parents, and faculty."] ] ],
          .element "nav" [("className", "site-nav"), ("aria-label", "Primary")]
            [ .element "a" [("href", "#students")] [.text "Students"],
              .element "a" [("href", "#parents")] [.text "Parents"],
              .element "a" [("href", "#faculty")] [.text "Faculty/Staff"] ] ],
      .element "main" []
        [ .element "section" [("className", "hero"), ("aria-labelledby", "hero-heading")]
            [ .element "h2" [("id", "hero-heading")]
                [.text "Answers and help for everything UC Merced — registration, campus life, and resources."],
              .element "div" [("className", "search")]
                [ .element "input"
                    [("type", "text"), ("placeholder", "e.g., How do I register for CS 101?"),
                     ("aria-label", "Ask Rufus")] [],
                  .element "button" [("className", "primary")] [.text "Ask Rufus"] ],
              .element "div" [("className", "cta-row")]
                [ .element "button" [("className", "primary")] [.text "Get Started"],
                  .element "a" [("className", "learn"), ("href", "#learn-more")] [.text "Learn more"] ] ],
          .element "section" [("className", "features"), ("id", "learn-more")]
            [ .element "article" []
                [ .element "h3" [] [.text "Course registration"],
                  .element "p" [] [.text "Step-by-step help with enrollment, deadlines, and prerequisites."] ],
              .element "article" []
                [ .element "h3" [] [.text "Campus information"],
                  .element "p" [] [.text "Find maps, offices, events, and student services across campus."] ],
              .element "article" []
                [ .element "h3" [] [.text "Parents & faculty"],
                  .element "p" [] [.text "Resources tailored to support students from families and staff."] ] ],
          .element "section" [("className", "about"), ("id", "students")]
            [ .element "h3" [] [.text "Who it\x27s for"],
              .element "p" []
                [.text "Rufus AI is a prototype assistant for UC Merced students, parents, and faculty — a quick way to find answers about courses, registration, campus life, and support services."] ] ],
      .element "footer" [("className", "site-footer")]
        [ .element "p" [] [.text "Built for UC Merced — prototype. Contact: rufus@example.edu"] ] ]

mutual

/-- All nodes of a tree in document (pre-)order, the root included. -/
def Node.flatten : Node → List Node
  | .text s => [.text s]
  | .element t a c => .element t a c :: flattenList c

/-- `Node.flatten` over a list of sibling nodes. -/
def flattenList : List Node → List Node
  | [] => []
  | n :: ns => Node.flatten n ++ flattenList ns

end

/-- The tag of an element, `none` for a text node. -/
def Node.tag : Node → Option String
  | .element t _ _ => some t
  | .text _ => none

/-- Look up an attribute value on a node (first occurrence of the key). -/
def Node.attr : Node → String → Option String
  | .element _ attrs _, k => (attrs.find? (fun p => p.1 == k)).map Prod.snd
  | .text _, _ => none

mutual

/-- The concatenated text of all descendant text nodes. -/
def Node.textContent : Node → String
  | .text s => s
  | .element _ _ c => textContentList c

/-- `Node.textContent` over a list of sibling nodes. -/
def textContentList : List Node → String
  | [] => ""
  | n :: ns => Node.textContent n ++ textContentList ns

end

/-- All descendant elements (root included) carrying the given tag. -/
def elems (n : Node) (t : String) : List Node :=
  n.flatten.filter (fun m => m.tag == some t)

/-- The values of all `id` attributes in the tree, in document order. -/
def ids (n : Node) : List String :=
  n.flatten.filterMap (fun m => m.attr "id")

/-- How many elements in the tree carry the given `id` value. -/
def countId (n : Node) (i : String) : Nat :=
  (ids n).count i

/-- The values of all `href` attributes in the tree, in document order. -/
def hrefs (n : Node) : List String :=
  n.flatten.filterMap (fun m => m.attr "href")

/-- The in-page targets of the links inside `nav` elements: their `href`
values with the leading `#` removed. -/
def navLinkTargets (n : Node) : List String :=
  ((elems n "nav").map (fun nv => (hrefs nv).map (fun h => h.drop 1))).flatten

/-- The six HTML heading tags. -/
def headingTags : List String := ["h1", "h2", "h3", "h4", "h5", "h6"]

/-- Whether a node is a heading-level element. -/
def isHeading (n : Node) : Bool :=
  match n.tag with
  | some t => headingTags.contains t
  | none => false

/-- The hero heading text of App.tsx line 24. -/
def heroText : String :=
  "Answers and help for everything UC Merced — registration, campus life, and resources."

/-- The titles of the `article` blocks: the text of each article's `h3`
headings, in document order. -/
def articleTitles (n : Node) : List String :=
  (elems n "article").map (fun a => String.join ((elems a "h3").map Node.textContent))

/-- The `section` elements whose class is `hero`. -/
def heroSections (n : Node) : List Node :=
  (elems n "section").filter (fun s => s.attr "className" == some "hero")

/-- The elements in the tree carrying the given `id` value. -/
def byId (n : Node) (i : String) : List Node :=
  n.flatten.filter (fun m => m.attr "id" == some i)

/-- Whether an attribute key is a DOM event-handler attribute (`on…`,
such as `onClick`). -/
def isEventAttr (k : String) : Bool := "on".data.isPrefixOf k.data

/-- Whether a node carries any event-handler attribute. -/
def Node.hasHandler : Node → Bool
  | .element _ attrs _ => attrs.any (fun p => isEventAttr p.1)
  | .text _ => false

/-- Claim C1 (evaluation at the failing inputs): the navigation links target
`students`, `parents` and `faculty`, but the document tree produced by App
carries ids `root`, `hero-heading`, `learn-more`, `students` only, so the
targets `parents` and `faculty` match no in-page anchor id (each occurs zero
times), while `students` matches exactly one. The claim that every
navigation link target matches an anchor id fails on the code. -/
theorem c1_nav_targets_broken :
    navLinkTargets (App ()) = ["students", "parents", "faculty"] ∧
    ids (App ()) = ["root", "hero-heading", "learn-more", "students"] ∧
    countId (App ()) "students" = 1 ∧
    countId (App ()) "parents" = 0 ∧
    countId (App ()) "faculty" = 0 :=
  ⟨rfl, rfl, rfl, rfl, rfl⟩

/-- Claim C2: the document tree produced by App contains exactly one
heading-level element (h1–h6) whose text is the hero text, and exactly three
`article` blocks, whose titles are "Course registration", "Campus
information" and "Parents & faculty" in order. -/
theorem c2_hero_heading_and_articles :
    ((App ()).flatten.filter (fun m => isHeading m && (m.textContent == heroText))).length = 1 ∧
    articleTitles (App ()) = ["Course registration", "Campus information", "Parents & faculty"] :=
  ⟨rfl, rfl⟩

/-- Claim C3: rendering App is deterministic and idempotent: App takes no
input beyond its unit invocation and holds no state, so any two invocations
produce identical document trees. -/
theorem c3_render_deterministic (u v : Unit) : App u = App v := rfl

/-- Witness for C3 at the concrete invocation `()`. -/
theorem c3_render_deterministic_witness : App () = App () :=
  c3_render_deterministic () ()

/-- Claim C4: the search text input rendered by App (the unique `input`
element) has accessible label "Ask Rufus" — which is non-empty — and
placeholder "e.g., How do I register for CS 101?". -/
theorem c4_search_input_labelled :
    (elems (App ()) "input").map (fun m => (m.attr "aria-label", m.attr "placeholder")) =
      [(some "Ask Rufus", some "e.g., How do I register for CS 101?")] ∧
    "Ask Rufus" ≠ "" :=
  ⟨rfl, by decide⟩

/-- Claim C5: the unique `header` of the tree produced by App contains
exactly one `nav`, whose accessible name is "Primary" (non-empty) and whose
three links have hrefs `#students`, `#parents`, `#faculty` in order. -/
theorem c5_header_nav :
    (elems (App ()) "header").length = 1 ∧
    ((elems (App ()) "header").map (fun h => elems h "nav")).flatten.map
        (fun nv => (nv.attr "aria-label", (elems nv "a").length, hrefs nv)) =
      [(some "Primary", 3, ["#students", "#parents", "#faculty"])] ∧
    "Primary" ≠ "" :=
  ⟨rfl, rfl, by decide⟩

/-- Claim C6: the unique hero section produced by App contains one `h2`
heading, a text input with the placeholder and the accessible label, buttons
labelled "Ask Rufus" and "Get Started", and a link labelled "Learn more"
whose href is `#learn-more`. -/
theorem c6_hero_contents :
    (heroSections (App ())).map (fun s =>
        ((elems s "h2").length,
         (elems s "input").map (fun i => (i.attr "placeholder", i.attr "aria-label")),
         (elems s "button").map Node.textContent,
         (elems s "a").map (fun a => (Node.textContent a, a.attr "href")))) =
      [(1, [(some "e.g., How do I register for CS 101?", some "Ask Rufus")],
        ["Ask Rufus", "Get Started"], [("Learn more", some "#learn-more")])] :=
  rfl

/-- Claim C7: rendering App cannot fail: for any invocation it evaluates to
the same fixed tree, and every `button` element in that tree (there are two)
carries no event-handler attribute, so the buttons are inert. -/
theorem c7_total_and_buttons_inert (u : Unit) :
    App u = App () ∧
    (elems (App u) "button").length = 2 ∧
    (elems (App u) "button").all (fun b => !b.hasHandler) = true :=
  ⟨rfl, rfl, rfl⟩

/-- Witness for C7 at the concrete invocation `()`. -/
theorem c7_total_and_buttons_inert_witness :
    App () = App () ∧
    (elems (App ()) "button").length = 2 ∧
    (elems (App ()) "button").all (fun b => !b.hasHandler) = true :=
  c7_total_and_buttons_inert ()

/-- Claim C8: the id attributes in the tree produced by App are exactly
`root`, `hero-heading`, `learn-more`, `students`, and no id value is
duplicated in the tree. -/
theorem c8_ids_unique :
    ids (App ()) = ["root", "hero-heading", "learn-more", "students"] ∧
    (ids (App ())).Nodup :=
  ⟨rfl, by decide⟩

/-- Claim C9: the target of the hero's "Learn more" link exists: the link's
href is `#learn-more` and exactly one element carries id `learn-more` — the
`section` whose class is `features`. -/
theorem c9_learn_more_resolves :
    ((elems (App ()) "a").filter (fun a => Node.textContent a == "Learn more")).map
        (fun a => a.attr "href") = [some "#learn-more"] ∧
    (byId (App ()) "learn-more").map (fun m => (m.tag, m.attr "className")) =
      [(some "section", some "features")] :=
  ⟨rfl, rfl⟩

/-- Claim C10: the only `img` element in the tree produced by App carries
the alternative text "Rufus AI logo", which is non-empty. -/
theorem c10_logo_alt_text :
    (elems (App ()) "img").map (fun i => i.attr "alt") = [some "Rufus AI logo"] ∧
    "Rufus AI logo" ≠ "" :=
  ⟨rfl, by decide⟩

end RufusAI
